import Mathlib

/-
  Verification of the booking workflow engine in src/pscbook.py.

  The interactive driver (Selenium) is modelled as a consumable tape of
  responses (`List Resp`): each interaction point of the program (a bounded
  wait for an element together with the attribute reads on the located
  element, a click dispatch, or a child-element lookup) consumes the head of
  the tape.  The environment decides, through the tape, whether the point
  yields a value (the element with its class attribute and innerHTML) or
  raises one of the driver exception kinds.  An exhausted tape behaves as a
  wait that never sees its element, i.e. a timeout.

  Each embedded function returns
    (Except Exc result, emitted events, remaining tape)
  where `Except.error e` means the Python function let exception `e`
  propagate to its caller, and the event list is the observable trace
  (navigations, waits, clicks, sleeps, log records) the call produced.
-/

namespace PSCBook

/-- Driver exception kinds that appear in src/pscbook.py. -/
inductive Exc where
  | timeoutEx
  | staleEx
  | interceptedEx
  | notInteractableEx
  | noSuchElementEx
deriving DecidableEq, Repr

/-- One environment response at an interaction point: either the located
element (carrying its class attribute and innerHTML) or an exception. -/
inductive Resp where
  | val (cls inner : String)
  | exc (e : Exc)
deriving DecidableEq, Repr

/-- Log levels used by the program (logger.info / logger.error;
logger.exception records at error level). -/
inductive LogLevel where
  | info
  | warning
  | error
deriving DecidableEq, Repr

/-- Observable trace events of a run. -/
inductive Event where
  | navigate (url : String)
  | waitPresent (xpath : String)
  | click (xpath : String)
  | sleep (secs : Nat)
  | findElements (xpath : String)
  | containsCheck (sectionIdx : Nat) (xpath : String)
  | log (lvl : LogLevel) (msg : String)
deriving DecidableEq, Repr

/-- Slot classification of the AvailabilityGate, read off the branch
conditions of click_time_selection (lines 104-108): a class list carrying
the token "red" is Unavailable, else one carrying the token "primary" is
AlreadySelected, else Selectable. -/
inductive SlotState where
  | Unavailable
  | AlreadySelected
  | Selectable
deriving DecidableEq, Repr

/-- Pop one response off the tape; an exhausted tape acts as a timeout. -/
def readResp : List Resp → Resp × List Resp
  | [] => (Resp.exc Exc.timeoutEx, [])
  | r :: t => (r, t)

-- Site constants of src/pscbook.py (lines 26-38).

def BOOKING_SITE : String := "https://picklesocialclub.playbypoint.com/book/picklesocialclub"

/-- DAY_SELECTION_XPATH with the day string substituted for the format slot. -/
def DAY_SELECTION_XPATH (d : String) : String :=
  "//button[div[@class=\"day_number\" and text()=\"" ++ d ++ "\"]]"

def COVERED_TYPE_SELECTION_XPATH : String := "//button[text()=\"Covered Pickleball\"]"

def OUTDOOR_TYPE_SELECTION_XPATH : String := "//button[text()=\"Outdoor Pickleball\"]"

def TIME_SELECTION_1_XPATH : String := "//button[text()=\"8-9am\"]"

def TIME_SELECTION_2_XPATH : String := "//button[text()=\"9-10am\"]"

def CLUB_CREDITS_SELECTION_XPATH : String := "//a[text()=\"Club credits\"]"

def CLUB_CREDITS_ACTIVE_XPATH : String := "//a[@class=\"item active\" and text()=\"Club credits\"]"

def BOOK_BUTTON_XPATH : String := "//button[text()=\"Book\"]"

def NEXT_BUTTON_XPATH : String := "//div[@class=\"content active\"]//button[span[text()=\" Next \"]]"

def SECTIONS_XPATH : String := "//div[@class=\"StepperItem StepperItemFluid \"]"

def CONTENT_ACTIVE_XPATH : String := "//div[@class=\"content active\"]"

/-- Python `s.split(' ')`: split at every single space, keeping empty
pieces (structural recursion so that terms compute in the kernel). -/
def tokens (s : String) : List String :=
  (s.toList.foldr
    (fun c acc =>
      match acc with
      | [] => [[c]]
      | g :: gs => if c = ' ' then [] :: g :: gs else (c :: g) :: gs)
    [[]]).map (fun l => String.mk l)

/-- Does the pattern (first argument) begin the list (second argument)? -/
def startsWith : List Char → List Char → Bool
  | [], _ => true
  | _ :: _, [] => false
  | a :: as, b :: bs => a = b && startsWith as bs

/-- Does the pattern occur as a contiguous sublist? -/
def occursIn (pat : List Char) : List Char → Bool
  | [] => startsWith pat []
  | c :: cs => startsWith pat (c :: cs) || occursIn pat cs

/-- Python substring membership `pat in s` for a nonempty pattern. -/
def containsSubstr (s pat : String) : Bool := occursIn pat.toList s.toList

/-- The AvailabilityGate classification, in the order the code tests the
markers (red before primary). -/
def classify (cls : String) : SlotState :=
  if (tokens cls).contains "red" then SlotState.Unavailable
  else if (tokens cls).contains "primary" then SlotState.AlreadySelected
  else SlotState.Selectable

/-- Line 147: `str(day) if day >= 10 else f'0{day}'`. -/
def day_number (d : Nat) : String :=
  if 10 ≤ d then toString d else "0" ++ toString d

/-- Line 146: covered selects the covered-court xpath, else outdoor. -/
def court_type_xpath (cov : Bool) : String :=
  if cov then COVERED_TYPE_SELECTION_XPATH else OUTDOOR_TYPE_SELECTION_XPATH

/-- One iteration of the retry loop of click_button_by_xpath
(lines 85-95): wait for the element and read its innerHTML (one tape
response), log, dispatch the click (one tape response), sleep 5. -/
def click_button_iter (xp : String) (t : List Resp) :
    Except Exc Unit × List Event × List Resp :=
  match readResp t with
  | (Resp.exc e, t1) => (Except.error e, [Event.waitPresent xp], t1)
  | (Resp.val _ inner, t1) =>
    match readResp t1 with
    | (Resp.exc e, t2) =>
        (Except.error e,
         [Event.waitPresent xp, Event.log LogLevel.info ("Clicking button: " ++ inner),
          Event.click xp], t2)
    | (Resp.val _ _, t2) =>
        (Except.ok (),
         [Event.waitPresent xp, Event.log LogLevel.info ("Clicking button: " ++ inner),
          Event.click xp, Event.sleep 5], t2)

/-- click_button_by_xpath (lines 75-95): two loop iterations; a
StaleElementReferenceException or ElementClickInterceptedException is
caught (logger.exception at error level) and the loop continues; any other
exception (in particular TimeoutException from the wait) propagates;
falling out of the loop returns None. -/
def click_button_by_xpath (xp : String) (t : List Resp) :
    Except Exc Unit × List Event × List Resp :=
  match click_button_iter xp t with
  | (Except.ok _, ev, t1) => (Except.ok (), ev, t1)
  | (Except.error e, ev, t1) =>
    if e = Exc.staleEx ∨ e = Exc.interceptedEx then
      match click_button_iter xp t1 with
      | (Except.ok _, ev2, t2) =>
        (Except.ok (),
         (ev ++ [Event.log LogLevel.error "Stale when trying to click button."]) ++ ev2, t2)
      | (Except.error e2, ev2, t2) =>
        if e2 = Exc.staleEx ∨ e2 = Exc.interceptedEx then
          (Except.ok (),
           (ev ++ [Event.log LogLevel.error "Stale when trying to click button."]) ++
             (ev2 ++ [Event.log LogLevel.error "Stale when trying to click button."]), t2)
        else
          (Except.error e2,
           (ev ++ [Event.log LogLevel.error "Stale when trying to click button."]) ++ ev2, t2)
    else (Except.error e, ev, t1)

/-- One iteration of the loop of click_time_selection (lines 99-121):
wait for the slot and read its class attribute (one tape response);
"red" token: log error and return False; "primary" token: return True;
otherwise log, click (one tape response), sleep 5, re-locate and re-read
the class attribute (one tape response) and return whether the string
"primary" occurs in it as a substring, logging an error when it does not. -/
def cts_iter (xp : String) (t : List Resp) :
    Except Exc Bool × List Event × List Resp :=
  match readResp t with
  | (Resp.exc e, t1) => (Except.error e, [Event.waitPresent xp], t1)
  | (Resp.val cls inner, t1) =>
    if (tokens cls).contains "red" then
      (Except.ok false,
       [Event.waitPresent xp, Event.log LogLevel.error ("Time selection not available: " ++ xp)],
       t1)
    else if (tokens cls).contains "primary" then
      (Except.ok true, [Event.waitPresent xp], t1)
    else
      match readResp t1 with
      | (Resp.exc e, t2) =>
        (Except.error e,
         [Event.waitPresent xp, Event.log LogLevel.info ("time selection " ++ inner),
          Event.click xp], t2)
      | (Resp.val _ _, t2) =>
        match readResp t2 with
        | (Resp.exc e, t3) =>
          (Except.error e,
           [Event.waitPresent xp, Event.log LogLevel.info ("time selection " ++ inner),
            Event.click xp, Event.sleep 5, Event.waitPresent xp], t3)
        | (Resp.val cls2 _, t3) =>
          if containsSubstr cls2 "primary" then
            (Except.ok true,
             [Event.waitPresent xp, Event.log LogLevel.info ("time selection " ++ inner),
              Event.click xp, Event.sleep 5, Event.waitPresent xp], t3)
          else
            (Except.ok false,
             [Event.waitPresent xp, Event.log LogLevel.info ("time selection " ++ inner),
              Event.click xp, Event.sleep 5, Event.waitPresent xp,
              Event.log LogLevel.error "Time available but did not click."], t3)

/-- click_time_selection (lines 98-122): two loop iterations; only
StaleElementReferenceException is caught (logger.exception at error level);
falling out of the loop returns False. -/
def click_time_selection (xp : String) (t : List Resp) :
    Except Exc Bool × List Event × List Resp :=
  match cts_iter xp t with
  | (Except.ok b, ev, t1) => (Except.ok b, ev, t1)
  | (Except.error e, ev, t1) =>
    if e = Exc.staleEx then
      match cts_iter xp t1 with
      | (Except.ok b, ev2, t2) =>
        (Except.ok b, (ev ++ [Event.log LogLevel.error "Stale reference exception."]) ++ ev2, t2)
      | (Except.error e2, ev2, t2) =>
        if e2 = Exc.staleEx then
          (Except.ok false,
           (ev ++ [Event.log LogLevel.error "Stale reference exception."]) ++
             (ev2 ++ [Event.log LogLevel.error "Stale reference exception."]), t2)
        else
          (Except.error e2,
           (ev ++ [Event.log LogLevel.error "Stale reference exception."]) ++ ev2, t2)
    else (Except.error e, ev, t1)

/-- contains_element (lines 125-130) applied to sections[idx]: one child
lookup (one tape response); NoSuchElementException means False, any other
driver exception propagates. -/
def contains_element (idx : Nat) (xp : String) (t : List Resp) :
    Except Exc Bool × List Event × List Resp :=
  match readResp t with
  | (Resp.val _ _, t1) => (Except.ok true, [Event.containsCheck idx xp], t1)
  | (Resp.exc Exc.noSuchElementEx, t1) => (Except.ok false, [Event.containsCheck idx xp], t1)
  | (Resp.exc e, t1) => (Except.error e, [Event.containsCheck idx xp], t1)

/-- The exception kinds caught by both try blocks of book_court
(lines 157, 181): TimeoutException and ElementNotInteractableException. -/
def caughtByBookCourt (e : Exc) : Bool :=
  e = Exc.timeoutEx || e = Exc.notInteractableEx

/-- The soft-verification log: nothing when the check passed, an
error-level record when it did not. -/
def soft (msg : String) (b : Bool) : List Event :=
  if b then [] else [Event.log LogLevel.error msg]

/-- First try block of book_court (lines 149-156): click the day entry,
click the court-type control, attempt both time selections; returns
`ok false` when both selections report failure (early return False),
`ok true` when at least one succeeded, and propagates driver exceptions
to the surrounding handler. -/
def slot_phase (day : String) (cov : Bool) (t : List Resp) :
    Except Exc Bool × List Event × List Resp :=
  match click_button_by_xpath (DAY_SELECTION_XPATH day) t with
  | (Except.error e, ev, t1) => (Except.error e, ev, t1)
  | (Except.ok _, ev1, t1) =>
    match click_button_by_xpath (court_type_xpath cov) t1 with
    | (Except.error e, ev, t2) => (Except.error e, ev1 ++ ev, t2)
    | (Except.ok _, ev2, t2) =>
      match click_time_selection TIME_SELECTION_1_XPATH t2 with
      | (Except.error e, ev, t3) => (Except.error e, ev1 ++ ev2 ++ ev, t3)
      | (Except.ok r1, ev3, t3) =>
        match click_time_selection TIME_SELECTION_2_XPATH t3 with
        | (Except.error e, ev, t4) => (Except.error e, ev1 ++ ev2 ++ ev3 ++ ev, t4)
        | (Except.ok r2, ev4, t4) =>
          if !(r1 || r2) then
            (Except.ok false,
             ev1 ++ ev2 ++ ev3 ++ ev4 ++
               [Event.log LogLevel.error "Both time selections not available."], t4)
          else (Except.ok true, ev1 ++ ev2 ++ ev3 ++ ev4, t4)

/-- Lines 174-180 of book_court: click the Club-credits option, wait for
its active marker (one tape response), click Book, sleep 10. -/
def stage_tail2 (t : List Resp) : Except Exc Unit × List Event × List Resp :=
  match click_button_by_xpath CLUB_CREDITS_SELECTION_XPATH t with
  | (Except.error e, ev, t1) => (Except.error e, ev, t1)
  | (Except.ok _, ev1, t1) =>
    match readResp t1 with
    | (Resp.exc e, t2) =>
        (Except.error e, ev1 ++ [Event.waitPresent CLUB_CREDITS_ACTIVE_XPATH], t2)
    | (Resp.val _ _, t2) =>
      match click_button_by_xpath BOOK_BUTTON_XPATH t2 with
      | (Except.error e, ev, t3) =>
          (Except.error e, ev1 ++ [Event.waitPresent CLUB_CREDITS_ACTIVE_XPATH] ++ ev, t3)
      | (Except.ok _, ev2, t3) =>
          (Except.ok (),
           ev1 ++ [Event.waitPresent CLUB_CREDITS_ACTIVE_XPATH] ++ ev2 ++ [Event.sleep 10], t3)

/-- Lines 169-173 of book_court followed by the rest: sleep 3, click the
Next control a second time, softly verify sections[2] is active
(error-level log on mismatch, no abort), then `stage_tail2`. -/
def stage_tail1 (t : List Resp) : Except Exc Unit × List Event × List Resp :=
  match click_button_by_xpath NEXT_BUTTON_XPATH t with
  | (Except.error e, ev, t1) => (Except.error e, Event.sleep 3 :: ev, t1)
  | (Except.ok _, ev1, t1) =>
    match contains_element 2 CONTENT_ACTIVE_XPATH t1 with
    | (Except.error e, ev, t2) => (Except.error e, Event.sleep 3 :: (ev1 ++ ev), t2)
    | (Except.ok b, ev2, t2) =>
      match stage_tail2 t2 with
      | (r, ev3, t3) =>
          (r, Event.sleep 3 :: (ev1 ++ ev2 ++ soft "Wrong div active2." b ++ ev3), t3)

/-- Lines 165-168 of book_court followed by the rest: click the Next
control, softly verify sections[1] is active (error-level log on mismatch,
no abort), then `stage_tail1`. -/
def stage_tail0 (t : List Resp) : Except Exc Unit × List Event × List Resp :=
  match click_button_by_xpath NEXT_BUTTON_XPATH t with
  | (Except.error e, ev, t1) => (Except.error e, ev, t1)
  | (Except.ok _, ev1, t1) =>
    match contains_element 1 CONTENT_ACTIVE_XPATH t1 with
    | (Except.error e, ev, t2) => (Except.error e, ev1 ++ ev, t2)
    | (Except.ok b, ev2, t2) =>
      match stage_tail1 t2 with
      | (r, ev3, t3) => (r, ev1 ++ ev2 ++ soft "Wrong div active1." b ++ ev3, t3)

/-- Second try block of book_court (lines 162-180): read the stepper
sections, softly verify sections[0] is active, then `stage_tail0`. -/
def stage_phase (t : List Resp) : Except Exc Unit × List Event × List Resp :=
  match contains_element 0 CONTENT_ACTIVE_XPATH t with
  | (Except.error e, ev, t1) => (Except.error e, Event.findElements SECTIONS_XPATH :: ev, t1)
  | (Except.ok b, ev0, t1) =>
    match stage_tail0 t1 with
    | (r, ev1, t2) =>
        (r, Event.findElements SECTIONS_XPATH :: (ev0 ++ soft "Wrong div active." b ++ ev1), t2)

/-- book_court (lines 133-185) for the target date with day-of-month
`day`: navigate to the booking site, run the slot phase (first try block;
TimeoutException / ElementNotInteractableException are caught and yield
False), then the stage phase (second try block, same handler), and report
success. -/
def book_court (day : Nat) (cov : Bool) (t : List Resp) :
    Except Exc Bool × List Event × List Resp :=
  let hdr : List Event :=
    [Event.navigate BOOKING_SITE,
     Event.log LogLevel.info
       ("Trying to book for " ++ day_number day ++ ", covered: " ++
        (if cov then "True" else "False") ++ ".")]
  match slot_phase (day_number day) cov t with
  | (Except.error e, ev, t1) =>
    if caughtByBookCourt e then
      (Except.ok false,
       hdr ++ ev ++ [Event.log LogLevel.error "Failed to select time. Court may be unavailable."],
       t1)
    else (Except.error e, hdr ++ ev, t1)
  | (Except.ok false, ev, t1) => (Except.ok false, hdr ++ ev, t1)
  | (Except.ok true, ev, t1) =>
    match stage_phase t1 with
    | (Except.error e, ev2, t2) =>
      if caughtByBookCourt e then
        (Except.ok false,
         hdr ++ ev ++ ev2 ++ [Event.log LogLevel.error "Failed to complete booking."], t2)
      else (Except.error e, hdr ++ ev ++ ev2, t2)
    | (Except.ok _, ev2, t2) =>
        (Except.ok true, hdr ++ ev ++ ev2 ++ [Event.log LogLevel.info "Booked court."], t2)

/-- One iteration of the booking loop of main (lines 217-222): run
book_court with the current category; only when the current category is
covered and the run failed, flip to outdoor and run book_court once more;
log the final booking result.  Returns the result, the updated category
flag, the list of category flags book_court was invoked with, the events,
and the remaining tape. -/
def run_attempt (day : Nat) (cov : Bool) (t : List Resp) :
    Except Exc Bool × Bool × List Bool × List Event × List Resp :=
  match book_court day cov t with
  | (Except.error e, ev, t1) => (Except.error e, cov, [cov], ev, t1)
  | (Except.ok b, ev, t1) =>
    if cov && !b then
      match book_court day false t1 with
      | (Except.error e, ev2, t2) => (Except.error e, false, [cov, false], ev ++ ev2, t2)
      | (Except.ok b2, ev2, t2) =>
        (Except.ok b2, false, [cov, false],
         ev ++ ev2 ++
           [Event.log LogLevel.info
             ("Booking result: " ++ (if b2 then "True" else "False"))], t2)
    else
      (Except.ok b, cov, [cov],
       ev ++ [Event.log LogLevel.info
         ("Booking result: " ++ (if b then "True" else "False"))], t1)

/-- The booking loop of main, `n` attempts threading the category flag;
collects the per-attempt category lists.  An exception from book_court
escapes the loop (main has no handler around it). -/
def attempts_loop : Nat → Nat → Bool → List Resp →
    Except Exc Unit × List (List Bool) × List Event × List Resp
  | 0, _, _, t => (Except.ok (), [], [], t)
  | n + 1, day, cov, t =>
    match run_attempt day cov t with
    | (Except.error e, _, cats, ev, t1) => (Except.error e, [cats], ev, t1)
    | (Except.ok _, cov1, cats, ev, t1) =>
      match attempts_loop n day cov1 t1 with
      | (r, catss, ev2, t2) => (r, cats :: catss, ev ++ ev2, t2)

/-- main (lines 216-222): `covered = False`, then three booking attempts. -/
def main_bookings (day : Nat) (t : List Resp) :
    Except Exc Unit × List (List Bool) × List Event × List Resp :=
  attempts_loop 3 day false t

/-- Does the event witness a click dispatch? -/
def isClick : Event → Bool
  | Event.click _ => true
  | _ => false

/-- Does the event belong to the confirmation-stage block (the stepper
section lookup or one of the active-section checks)?  The stage block of
book_court always begins with `findElements`, so a trace free of these
events never entered the confirmation stages. -/
def stageProbe : Event → Bool
  | Event.findElements _ => true
  | Event.containsCheck _ _ => true
  | _ => false

/-- A concrete environment where the day and category clicks succeed and
both slot candidates carry the "red" marker, so the run fails from slot
unavailability alone. -/
def C1_tape : List Resp :=
  [Resp.val "x" "h", Resp.val "x" "h", Resp.val "x" "h", Resp.val "x" "h",
   Resp.val "red" "h", Resp.val "red" "h"]

/-- The same no-slot environment, reserved for claim C3. -/
def C3_tape : List Resp :=
  [Resp.val "x" "h", Resp.val "x" "h", Resp.val "x" "h", Resp.val "x" "h",
   Resp.val "red" "h", Resp.val "red" "h"]

/-- An environment where the first slot candidate is already selected
(so its attempt returns true) while the second is bare and stays bare
after its click; day/category clicks and the whole stage block succeed. -/
def C6_tape : List Resp :=
  [Resp.val "x" "h", Resp.val "x" "h", Resp.val "x" "h", Resp.val "x" "h",
   Resp.val "primary" "h", Resp.val "" "h", Resp.val "x" "h", Resp.val "" "h"] ++
    List.replicate 12 (Resp.val "x" "h")

/-- An environment where both slot candidates are already selected and the
tape then runs dry (the stage block times out at its first check). -/
def C6_wtape : List Resp :=
  [Resp.val "x" "h", Resp.val "x" "h", Resp.val "x" "h", Resp.val "x" "h",
   Resp.val "primary" "h", Resp.val "primary" "h"]

/-- An environment for the stage block alone: the Next click succeeds, the
sections[1] activity check reports no match, everything after succeeds. -/
def C9_tape : List Resp :=
  [Resp.val "x" "h", Resp.val "x" "h", Resp.exc Exc.noSuchElementEx] ++
    List.replicate 8 (Resp.val "x" "h")

/-- Is the response one that contains_element turns into a Boolean
(element present, or NoSuchElementException)? -/
def containsSafe : Resp → Bool
  | Resp.val _ _ => true
  | Resp.exc Exc.noSuchElementEx => true
  | _ => false

/-- The Boolean contains_element computes from a response it handles. -/
def containsRes : Resp → Bool
  | Resp.val _ _ => true
  | _ => false

/-- Is the event a warning-level log record? -/
def isWarning : Event → Bool
  | Event.log LogLevel.warning _ => true
  | _ => false

theorem click_button_iter_nostage (xp : String) (t : List Resp) :
    ((click_button_iter xp t).2.1).all (fun e => !stageProbe e) = true := by
  rcases t with _ | ⟨⟨cls, inner⟩ | ex, _ | ⟨⟨c2, i2⟩ | e2, t2⟩⟩ <;> rfl

/-- Membership form of `click_button_iter_nostage`. -/
theorem click_button_iter_mem (xp : String) (t : List Resp) :
    ∀ e ∈ (click_button_iter xp t).2.1, stageProbe e = false := by
  have h := click_button_iter_nostage xp t
  simp only [List.all_eq_true, Bool.not_eq_true'] at h
  exact h

theorem nostage_append {l1 l2 : List Event}
    (h1 : ∀ e ∈ l1, stageProbe e = false) (h2 : ∀ e ∈ l2, stageProbe e = false) :
    ∀ e ∈ l1 ++ l2, stageProbe e = false := by
  intro e he
  rcases List.mem_append.mp he with h | h
  · exact h1 e h
  · exact h2 e h

theorem nostage_log (lvl : LogLevel) (m : String) :
    ∀ e ∈ [Event.log lvl m], stageProbe e = false := by
  intro e he
  simp only [List.mem_singleton] at he
  subst he
  rfl

theorem click_button_nostage (xp : String) (t : List Resp) :
    ∀ e ∈ (click_button_by_xpath xp t).2.1, stageProbe e = false := by
  unfold click_button_by_xpath
  split
  · next ev t1 heq =>
      have H1 := click_button_iter_mem xp t
      rw [heq] at H1
      exact H1
  · next e ev t1 heq =>
      have H1 := click_button_iter_mem xp t
      rw [heq] at H1
      split
      · split
        · next ev2 t2 heq2 =>
            have H2 := click_button_iter_mem xp t1
            rw [heq2] at H2
            exact nostage_append (nostage_append H1 (nostage_log _ _)) H2
        · next e2 ev2 t2 heq2 =>
            have H2 := click_button_iter_mem xp t1
            rw [heq2] at H2
            split
            · exact nostage_append (nostage_append H1 (nostage_log _ _))
                (nostage_append H2 (nostage_log _ _))
            · exact nostage_append (nostage_append H1 (nostage_log _ _)) H2
      · exact H1

theorem cts_iter_nostage (xp : String) (t : List Resp) :
    ((cts_iter xp t).2.1).all (fun e => !stageProbe e) = true := by
  rcases t with _ | ⟨⟨cls, inner⟩ | ex, _ | ⟨⟨c2, i2⟩ | e2, _ | ⟨⟨c3, i3⟩ | e3, t3⟩⟩⟩ <;>
      simp only [cts_iter, readResp] <;> repeat' split
  all_goals rfl

/-- Membership form of `cts_iter_nostage`. -/
theorem cts_iter_mem (xp : String) (t : List Resp) :
    ∀ e ∈ (cts_iter xp t).2.1, stageProbe e = false := by
  have h := cts_iter_nostage xp t
  simp only [List.all_eq_true, Bool.not_eq_true'] at h
  exact h

theorem cts_nostage (xp : String) (t : List Resp) :
    ∀ e ∈ (click_time_selection xp t).2.1, stageProbe e = false := by
  unfold click_time_selection
  split
  · next b ev t1 heq =>
      have H1 := cts_iter_mem xp t
      rw [heq] at H1
      exact H1
  · next e ev t1 heq =>
      have H1 := cts_iter_mem xp t
      rw [heq] at H1
      split
      · split
        · next b ev2 t2 heq2 =>
            have H2 := cts_iter_mem xp t1
            rw [heq2] at H2
            exact nostage_append (nostage_append H1 (nostage_log _ _)) H2
        · next e2 ev2 t2 heq2 =>
            have H2 := cts_iter_mem xp t1
            rw [heq2] at H2
            split
            · exact nostage_append (nostage_append H1 (nostage_log _ _))
                (nostage_append H2 (nostage_log _ _))
            · exact nostage_append (nostage_append H1 (nostage_log _ _)) H2
      · exact H1

/-- From an Unavailable classification, extract the branch condition the
code actually tests (the token "red" in the split class list). -/
theorem classify_unavailable_red {cls : String}
    (h : classify cls = SlotState.Unavailable) : "red" ∈ tokens cls := by
  unfold classify at h
  split at h
  · next hr => simpa using hr
  · split at h
    · exact SlotState.noConfusion h
    · exact SlotState.noConfusion h

/-- From an AlreadySelected classification, extract the branch
conditions: no "red" token but a "primary" token. -/
theorem classify_selected {cls : String}
    (h : classify cls = SlotState.AlreadySelected) :
    "red" ∉ tokens cls ∧ "primary" ∈ tokens cls := by
  unfold classify at h
  split at h
  · exact SlotState.noConfusion h
  · next hr =>
      split at h
      · next hp => exact ⟨by simpa using hr, by simpa using hp⟩
      · exact SlotState.noConfusion h

/-- From a Selectable classification: neither a "red" nor a "primary"
token. -/
theorem classify_selectable {cls : String}
    (h : classify cls = SlotState.Selectable) :
    "red" ∉ tokens cls ∧ "primary" ∉ tokens cls := by
  unfold classify at h
  split at h
  · exact SlotState.noConfusion h
  · next hr =>
      split at h
      · exact SlotState.noConfusion h
      · next hp => exact ⟨by simpa using hr, by simpa using hp⟩

/-- Claim C4: a slot whose class markers classify as Unavailable (the
token "red" is present) makes click_time_selection return false from the
read alone: the returned trace is exactly the wait and the error log, and
contains no click dispatch. -/
theorem C4_unavailable_never_clicked (xp cls inner : String) (rest : List Resp)
    (hcls : classify cls = SlotState.Unavailable) :
    click_time_selection xp (Resp.val cls inner :: rest) =
      (Except.ok false,
       [Event.waitPresent xp,
        Event.log LogLevel.error ("Time selection not available: " ++ xp)], rest) ∧
    ∀ e ∈ (click_time_selection xp (Resp.val cls inner :: rest)).2.1, isClick e = false := by
  have hred := classify_unavailable_red hcls
  have hmain : click_time_selection xp (Resp.val cls inner :: rest) =
      (Except.ok false,
       [Event.waitPresent xp,
        Event.log LogLevel.error ("Time selection not available: " ++ xp)], rest) := by
    simp [click_time_selection, cts_iter, readResp, hred]
  refine ⟨hmain, ?_⟩
  rw [hmain]
  intro e he
  simp only [List.mem_cons, List.not_mem_nil, or_false] at he
  rcases he with rfl | rfl <;> rfl

/-- Witness for C4 at a concrete Unavailable slot. -/
theorem C4_witness :
    click_time_selection TIME_SELECTION_1_XPATH [Resp.val "red" "h"] =
      (Except.ok false,
       [Event.waitPresent TIME_SELECTION_1_XPATH,
        Event.log LogLevel.error
          ("Time selection not available: " ++ TIME_SELECTION_1_XPATH)], []) ∧
    ∀ e ∈ (click_time_selection TIME_SELECTION_1_XPATH [Resp.val "red" "h"]).2.1,
      isClick e = false :=
  C4_unavailable_never_clicked TIME_SELECTION_1_XPATH "red" "h" [] (by decide)

/-- Claim C5: on an AlreadySelected slot (token "primary", no token
"red") click_time_selection returns true immediately, dispatches no click
and leaves the slot state (the remaining tape) untouched, so a second call
on the unchanged state again returns true with no click. -/
theorem C5_already_selected_idempotent (xp cls inner cls2 inner2 : String) (rest : List Resp)
    (h1 : classify cls = SlotState.AlreadySelected)
    (h2 : classify cls2 = SlotState.AlreadySelected) :
    click_time_selection xp (Resp.val cls inner :: Resp.val cls2 inner2 :: rest) =
      (Except.ok true, [Event.waitPresent xp], Resp.val cls2 inner2 :: rest) ∧
    click_time_selection xp (Resp.val cls2 inner2 :: rest) =
      (Except.ok true, [Event.waitPresent xp], rest) ∧
    ∀ e ∈ (click_time_selection xp (Resp.val cls inner :: Resp.val cls2 inner2 :: rest)).2.1 ++
          (click_time_selection xp (Resp.val cls2 inner2 :: rest)).2.1,
      isClick e = false := by
  obtain ⟨hr1, hp1⟩ := classify_selected h1
  obtain ⟨hr2, hp2⟩ := classify_selected h2
  have hm1 : click_time_selection xp (Resp.val cls inner :: Resp.val cls2 inner2 :: rest) =
      (Except.ok true, [Event.waitPresent xp], Resp.val cls2 inner2 :: rest) := by
    simp [click_time_selection, cts_iter, readResp, hr1, hp1]
  have hm2 : click_time_selection xp (Resp.val cls2 inner2 :: rest) =
      (Except.ok true, [Event.waitPresent xp], rest) := by
    simp [click_time_selection, cts_iter, readResp, hr2, hp2]
  refine ⟨hm1, hm2, ?_⟩
  rw [hm1, hm2]
  intro e he
  simp only [List.mem_append, List.mem_cons, List.not_mem_nil, or_false] at he
  rcases he with rfl | rfl <;> rfl

/-- Witness for C5 at a concrete AlreadySelected slot. -/
theorem C5_witness :
    click_time_selection TIME_SELECTION_1_XPATH
        [Resp.val "primary" "h", Resp.val "primary" "h"] =
      (Except.ok true, [Event.waitPresent TIME_SELECTION_1_XPATH],
       [Resp.val "primary" "h"]) ∧
    click_time_selection TIME_SELECTION_1_XPATH [Resp.val "primary" "h"] =
      (Except.ok true, [Event.waitPresent TIME_SELECTION_1_XPATH], []) ∧
    ∀ e ∈ (click_time_selection TIME_SELECTION_1_XPATH
            [Resp.val "primary" "h", Resp.val "primary" "h"]).2.1 ++
          (click_time_selection TIME_SELECTION_1_XPATH [Resp.val "primary" "h"]).2.1,
      isClick e = false :=
  C5_already_selected_idempotent TIME_SELECTION_1_XPATH "primary" "h" "primary" "h" []
    (by decide) (by decide)

/-- Claim C8: for every day-of-month (1..31) the day-matching string is
exactly two characters, zero-padded below 10; in particular day 23 gives
"23" and day 5 gives "05". -/
theorem C8_day_string (d : Nat) (h1 : 1 ≤ d) (h2 : d ≤ 31) :
    (day_number d).length = 2 ∧ day_number 23 = "23" ∧ day_number 5 = "05" := by
  refine ⟨?_, by decide, by decide⟩
  interval_cases d <;> decide

/-- Witness for C8 at day 23. -/
theorem C8_witness :
    1 ≤ 23 ∧ 23 ≤ 31 ∧
      ((day_number 23).length = 2 ∧ day_number 23 = "23" ∧ day_number 5 = "05") :=
  ⟨by decide, by decide, C8_day_string 23 (by decide) (by decide)⟩

/-- Claim C10: every book_court run starts by re-loading the booking page:
whatever the environment does, the first event of the produced trace is the
navigation to BOOKING_SITE, before any wait, click or check. -/
theorem C10_fresh_navigation (day : Nat) (cov : Bool) (t : List Resp) :
    ∃ res ev t1, book_court day cov t =
      (res, Event.navigate BOOKING_SITE :: ev, t1) := by
  unfold book_court
  dsimp only
  split
  · split
    · exact ⟨_, _, _, rfl⟩
    · exact ⟨_, _, _, rfl⟩
  · exact ⟨_, _, _, rfl⟩
  · split
    · split
      · exact ⟨_, _, _, rfl⟩
      · exact ⟨_, _, _, rfl⟩
    · exact ⟨_, _, _, rfl⟩

/-- Claim C2 (amended): click_button_by_xpath never lets a stale-reference
or click-intercepted fault escape to its caller (any exception it
propagates is of another kind, e.g. the wait timeout), and exhausting the
two retries on stale faults makes it return normally — with the same
value (None) as a successful click, so no failure outcome is observable. -/
theorem C2_click_exception_policy :
    (∀ xp t e, (click_button_by_xpath xp t).1 = Except.error e →
       e ≠ Exc.staleEx ∧ e ≠ Exc.interceptedEx) ∧
    (∀ xp, (click_button_by_xpath xp [Resp.exc Exc.staleEx, Resp.exc Exc.staleEx]).1 =
       Except.ok ()) := by
  constructor
  · intro xp t e h
    unfold click_button_by_xpath at h
    split at h
    · exact absurd h (by simp)
    · split at h
      · split at h
        · exact absurd h (by simp)
        · split at h
          · exact absurd h (by simp)
          · next e2 ev2 t2 heq2 hc2 =>
              have he : e2 = e := by simpa using h
              subst he
              push_neg at hc2
              exact hc2
      · next e1 ev1 t1 heq1 hc1 =>
          have he : e1 = e := by simpa using h
          subst he
          push_neg at hc1
          exact hc1
  · intro xp
    rfl

/-- Counterexample to C2 as stated: a wait timeout is not returned as an
outcome value but propagates as an exception (first conjunct), while
exhausted stale retries return the very same value a successful click
returns, so the caller observes no Timeout-equivalent failure outcome
(second and third conjuncts agree on Except.ok). -/
theorem C2_counterexample :
    click_button_by_xpath NEXT_BUTTON_XPATH [] =
      (Except.error Exc.timeoutEx, [Event.waitPresent NEXT_BUTTON_XPATH], []) ∧
    (click_button_by_xpath NEXT_BUTTON_XPATH
        [Resp.exc Exc.staleEx, Resp.exc Exc.staleEx]).1 = Except.ok () ∧
    (click_button_by_xpath NEXT_BUTTON_XPATH
        [Resp.val "x" "h", Resp.val "x" "h"]).1 = Except.ok () :=
  ⟨rfl, rfl, rfl⟩

/-- Witness for C2 (amended) on the empty tape: the propagated timeout is
neither a stale nor an intercepted fault. -/
theorem C2_witness :
    Exc.timeoutEx ≠ Exc.staleEx ∧ Exc.timeoutEx ≠ Exc.interceptedEx :=
  C2_click_exception_policy.1 NEXT_BUTTON_XPATH [] Exc.timeoutEx rfl

/-- Claim C3: when the day and category clicks go through but both
time-slot candidates report failure, book_court returns False right after
logging the no-slot error, and its whole trace contains no
confirmation-stage step (no stepper-section lookup or active-section
check; the stage block always starts with one). -/
theorem C3_no_slot_available (day : Nat) (cov : Bool) (t : List Resp)
    {ev1 ev2 ev3 ev4 : List Event} {t1 t2 t3 t4 : List Resp}
    (h1 : click_button_by_xpath (DAY_SELECTION_XPATH (day_number day)) t =
            (Except.ok (), ev1, t1))
    (h2 : click_button_by_xpath (court_type_xpath cov) t1 = (Except.ok (), ev2, t2))
    (h3 : click_time_selection TIME_SELECTION_1_XPATH t2 = (Except.ok false, ev3, t3))
    (h4 : click_time_selection TIME_SELECTION_2_XPATH t3 = (Except.ok false, ev4, t4)) :
    book_court day cov t =
      (Except.ok false,
       [Event.navigate BOOKING_SITE,
        Event.log LogLevel.info
          ("Trying to book for " ++ day_number day ++ ", covered: " ++
           (if cov then "True" else "False") ++ ".")] ++
         (ev1 ++ ev2 ++ ev3 ++ ev4 ++
           [Event.log LogLevel.error "Both time selections not available."]), t4) ∧
    ∀ e ∈ (book_court day cov t).2.1, stageProbe e = false := by
  have hsp : slot_phase (day_number day) cov t =
      (Except.ok false,
       ev1 ++ ev2 ++ ev3 ++ ev4 ++
         [Event.log LogLevel.error "Both time selections not available."], t4) := by
    unfold slot_phase
    simp only [h1, h2, h3, h4]
    simp
  have hmain : book_court day cov t =
      (Except.ok false,
       [Event.navigate BOOKING_SITE,
        Event.log LogLevel.info
          ("Trying to book for " ++ day_number day ++ ", covered: " ++
           (if cov then "True" else "False") ++ ".")] ++
         (ev1 ++ ev2 ++ ev3 ++ ev4 ++
           [Event.log LogLevel.error "Both time selections not available."]), t4) := by
    unfold book_court
    rw [hsp]
  refine ⟨hmain, ?_⟩
  rw [hmain]
  have Hev1 : ∀ e ∈ ev1, stageProbe e = false := by
    have h := click_button_nostage (DAY_SELECTION_XPATH (day_number day)) t
    rw [h1] at h
    exact h
  have Hev2 : ∀ e ∈ ev2, stageProbe e = false := by
    have h := click_button_nostage (court_type_xpath cov) t1
    rw [h2] at h
    exact h
  have Hev3 : ∀ e ∈ ev3, stageProbe e = false := by
    have h := cts_nostage TIME_SELECTION_1_XPATH t2
    rw [h3] at h
    exact h
  have Hev4 : ∀ e ∈ ev4, stageProbe e = false := by
    have h := cts_nostage TIME_SELECTION_2_XPATH t3
    rw [h4] at h
    exact h
  intro e he
  rcases List.mem_append.mp he with hh | hh
  · simp only [List.mem_cons, List.not_mem_nil, or_false] at hh
    rcases hh with rfl | rfl <;> rfl
  · exact nostage_append (nostage_append (nostage_append (nostage_append Hev1 Hev2) Hev3) Hev4)
      (nostage_log LogLevel.error "Both time selections not available.") e hh

/-- Witness for C3 on the concrete no-slot environment. -/
theorem C3_witness :
    (book_court 23 false C3_tape).1 = Except.ok false ∧
    ∀ e ∈ (book_court 23 false C3_tape).2.1, stageProbe e = false := by
  have H := C3_no_slot_available 23 false C3_tape rfl rfl rfl rfl
  exact ⟨by rw [H.1], H.2⟩

/-- With the outdoor category (covered = false) an attempt performs
exactly one orchestrator run and the category flag stays false: the
fallback branch of main requires `covered` to be true. -/
theorem run_attempt_false_cats (day : Nat) (t : List Resp) :
    (run_attempt day false t).2.1 = false ∧ (run_attempt day false t).2.2.1 = [false] := by
  unfold run_attempt
  rcases hb : book_court day false t with ⟨r, ev, t1⟩
  rcases r with e | b
  · exact ⟨rfl, rfl⟩
  · simp

/-- Every attempt of the booking loop that starts (and hence stays) at
covered = false records exactly the category list [false]. -/
theorem attempts_loop_false_cats (n day : Nat) (t : List Resp) :
    ∀ cats ∈ (attempts_loop n day false t).2.1, cats = [false] := by
  induction n generalizing t with
  | zero =>
      intro cats h
      simp [attempts_loop] at h
  | succ n ih =>
      intro cats h
      obtain ⟨hcov, hcats⟩ := run_attempt_false_cats day t
      rcases hra : run_attempt day false t with ⟨r, cov1, cats1, ev, t1⟩
      rw [hra] at hcov hcats
      have hcov1 : cov1 = false := hcov
      have hcats1 : cats1 = [false] := hcats
      subst hcov1
      rcases r with e | u
      · have h2 : cats ∈ [cats1] := by
          unfold attempts_loop at h
          rw [hra] at h
          exact h
        simp only [List.mem_singleton] at h2
        subst h2
        exact hcats1
      · rcases hal : attempts_loop n day false t1 with ⟨r2, catss, ev2, t2⟩
        have h2 : cats ∈ cats1 :: catss := by
          unfold attempts_loop at h
          simp only [hra, hal] at h
          exact h
        rcases List.mem_cons.mp h2 with rfl | hm
        · exact hcats1
        · exact ih t1 cats (by rw [hal]; exact hm)

/-- Claim C1 (amended): the fallback-retry branch of main fires only when
the category in use is the covered one; since main starts at
covered = false and never raises it, every attempt performs exactly one
orchestrator run with the outdoor category — a failed outdoor run is not
retried with another category.  Had the current category been covered and
its run failed, a single retry with the outdoor category would follow
within the same attempt. -/
theorem C1_no_fallback_from_outdoor :
    (∀ day t, (run_attempt day false t).2.2.1 = [false]) ∧
    (∀ day t, (book_court day true t).1 = Except.ok false →
       (run_attempt day true t).2.2.1 = [true, false]) ∧
    (∀ day t, ∀ cats ∈ (main_bookings day t).2.1, cats = [false]) := by
  refine ⟨fun day t => (run_attempt_false_cats day t).2, ?_, ?_⟩
  · intro day t hfail
    unfold run_attempt
    rcases hb : book_court day true t with ⟨r, ev, t1⟩
    rw [hb] at hfail
    have hr : r = Except.ok false := hfail
    subst hr
    rcases hb2 : book_court day false t1 with ⟨r2, ev2, t2⟩
    rcases r2 with e | b2 <;> simp [hb2]
  · intro day t
    exact attempts_loop_false_cats 3 day t

/-- Counterexample to C1 as stated: a run whose first category fails
purely from slot unavailability (both candidates red; outcome False with
the no-slot error logged) is not retried with the next category — all
three attempts of main perform a single orchestrator run with the same
category. -/
theorem C1_counterexample :
    (book_court 23 false C1_tape).1 = Except.ok false ∧
    Event.log LogLevel.error "Both time selections not available." ∈
      (book_court 23 false C1_tape).2.1 ∧
    (main_bookings 23 (C1_tape ++ C1_tape ++ C1_tape)).2.1 = [[false], [false], [false]] := by
  refine ⟨rfl, ?_, rfl⟩
  decide

/-- Witness for C1 (amended) on a concrete failing environment, for both
the actual initial category (outdoor, no retry) and the hypothetical
covered start (one retry with outdoor). -/
theorem C1_witness :
    (run_attempt 23 false C1_tape).2.2.1 = [false] ∧
    (run_attempt 23 true C1_tape).2.2.1 = [true, false] :=
  ⟨C1_no_fallback_from_outdoor.1 23 C1_tape,
   C1_no_fallback_from_outdoor.2.1 23 C1_tape rfl⟩

/-- Once the slot phase succeeds, book_court continues into the stage
phase: its trace extends the slot-phase trace, whatever the stage block
then does. -/
theorem book_court_stage_continuation (day : Nat) (cov : Bool) (t : List Resp)
    {evs : List Event} {t4 : List Resp}
    (hsp : slot_phase (day_number day) cov t = (Except.ok true, evs, t4)) :
    ∃ res evp tp, book_court day cov t =
      (res,
       [Event.navigate BOOKING_SITE,
        Event.log LogLevel.info
          ("Trying to book for " ++ day_number day ++ ", covered: " ++
           (if cov then "True" else "False") ++ ".")] ++ evs ++ evp, tp) := by
  unfold book_court
  rcases hst : stage_phase t4 with ⟨r, evst, ts⟩
  rcases r with e | u
  · cases hc : caughtByBookCourt e
    · exact ⟨Except.error e, evst, ts, by simp [hsp, hst, hc]⟩
    · exact ⟨Except.ok false,
        evst ++ [Event.log LogLevel.error "Failed to complete booking."], ts,
        by simp [hsp, hst, hc]⟩
  · exact ⟨Except.ok true, evst ++ [Event.log LogLevel.info "Booked court."], ts,
      by simp [hsp, hst]⟩

/-- Claim C6 (amended): the orchestrator attempts both slot candidates
unconditionally — the second is attempted even when the first already
returned true — and the slot stage fails (False with the no-slot log)
exactly when both returned false. -/
theorem C6_both_candidates_attempted (day : Nat) (cov : Bool) (t : List Resp)
    {b1 b2 : Bool} {ev1 ev2 ev3 ev4 : List Event} {t1 t2 t3 t4 : List Resp}
    (h1 : click_button_by_xpath (DAY_SELECTION_XPATH (day_number day)) t =
            (Except.ok (), ev1, t1))
    (h2 : click_button_by_xpath (court_type_xpath cov) t1 = (Except.ok (), ev2, t2))
    (h3 : click_time_selection TIME_SELECTION_1_XPATH t2 = (Except.ok b1, ev3, t3))
    (h4 : click_time_selection TIME_SELECTION_2_XPATH t3 = (Except.ok b2, ev4, t4)) :
    ∃ res evp tp,
      book_court day cov t =
        (res,
         [Event.navigate BOOKING_SITE,
          Event.log LogLevel.info
            ("Trying to book for " ++ day_number day ++ ", covered: " ++
             (if cov then "True" else "False") ++ ".")] ++
           ev1 ++ ev2 ++ ev3 ++ ev4 ++ evp, tp) ∧
      ((b1 || b2) = false →
        res = Except.ok false ∧
        evp = [Event.log LogLevel.error "Both time selections not available."]) := by
  cases hb : b1 || b2
  · have hsp : slot_phase (day_number day) cov t =
        (Except.ok false,
         ev1 ++ ev2 ++ ev3 ++ ev4 ++
           [Event.log LogLevel.error "Both time selections not available."], t4) := by
      unfold slot_phase
      simp only [h1, h2, h3, h4]
      simp [hb]
    refine ⟨Except.ok false,
      [Event.log LogLevel.error "Both time selections not available."], t4, ?_,
      fun _ => ⟨rfl, rfl⟩⟩
    unfold book_court
    simp [hsp]
  · have hsp : slot_phase (day_number day) cov t =
        (Except.ok true, ev1 ++ ev2 ++ ev3 ++ ev4, t4) := by
      unfold slot_phase
      simp only [h1, h2, h3, h4]
      simp [hb]
    obtain ⟨res, evp, tp, heq⟩ := book_court_stage_continuation day cov t hsp
    refine ⟨res, evp, tp, ?_, ?_⟩
    · rw [heq]
      simp
    · intro hfalse
      exact Bool.noConfusion hfalse

/-- Counterexample to C6 as stated: in this run the first candidate's
attempt returns true, yet the second candidate is still attempted — and
even clicked — before the run proceeds (successfully) to the stages. -/
theorem C6_counterexample :
    (click_time_selection TIME_SELECTION_1_XPATH (List.drop 4 C6_tape)).1 =
      Except.ok true ∧
    Event.click TIME_SELECTION_2_XPATH ∈ (book_court 23 false C6_tape).2.1 ∧
    (book_court 23 false C6_tape).1 = Except.ok true := by
  refine ⟨rfl, ?_, rfl⟩
  decide

/-- Witness for C6 (amended) on a concrete environment where both
candidates report true. -/
theorem C6_witness :
    ∃ res evp tp,
      book_court 23 false C6_wtape =
        (res,
         [Event.navigate BOOKING_SITE,
          Event.log LogLevel.info "Trying to book for 23, covered: False."] ++
           [Event.waitPresent (DAY_SELECTION_XPATH (day_number 23)),
            Event.log LogLevel.info "Clicking button: h",
            Event.click (DAY_SELECTION_XPATH (day_number 23)), Event.sleep 5] ++
           [Event.waitPresent (court_type_xpath false),
            Event.log LogLevel.info "Clicking button: h",
            Event.click (court_type_xpath false), Event.sleep 5] ++
           [Event.waitPresent TIME_SELECTION_1_XPATH] ++
           [Event.waitPresent TIME_SELECTION_2_XPATH] ++ evp, tp) ∧
      ((true || true) = false →
        res = Except.ok false ∧
        evp = [Event.log LogLevel.error "Both time selections not available."]) :=
  C6_both_candidates_attempted 23 false C6_wtape rfl rfl rfl rfl

/-- Claim C7 (amended): on a Selectable slot click_time_selection clicks
exactly once, sleeps, re-reads the slot, and returns true exactly when the
re-read class attribute contains "primary" as a substring (the code tests
the raw attribute string, not the token-level classification); when the
marker is absent it logs the error and returns false. -/
theorem C7_selectable_click_verified (xp cls inner c2 i2 cls2 inner2 : String)
    (rest : List Resp) (hsel : classify cls = SlotState.Selectable) :
    click_time_selection xp
        (Resp.val cls inner :: Resp.val c2 i2 :: Resp.val cls2 inner2 :: rest) =
      (Except.ok (containsSubstr cls2 "primary"),
       [Event.waitPresent xp, Event.log LogLevel.info ("time selection " ++ inner),
        Event.click xp, Event.sleep 5, Event.waitPresent xp] ++
         (if containsSubstr cls2 "primary" then []
          else [Event.log LogLevel.error "Time available but did not click."]),
       rest) ∧
    (click_time_selection xp
        (Resp.val cls inner :: Resp.val c2 i2 :: Resp.val cls2 inner2 :: rest)).2.1.filter
        isClick = [Event.click xp] := by
  obtain ⟨hr, hp⟩ := classify_selectable hsel
  have hm : click_time_selection xp
      (Resp.val cls inner :: Resp.val c2 i2 :: Resp.val cls2 inner2 :: rest) =
      (Except.ok (containsSubstr cls2 "primary"),
       [Event.waitPresent xp, Event.log LogLevel.info ("time selection " ++ inner),
        Event.click xp, Event.sleep 5, Event.waitPresent xp] ++
         (if containsSubstr cls2 "primary" then []
          else [Event.log LogLevel.error "Time available but did not click."]),
       rest) := by
    cases hq : containsSubstr cls2 "primary" <;>
      simp [click_time_selection, cts_iter, readResp, hr, hp, hq]
  refine ⟨hm, ?_⟩
  rw [hm]
  cases hq : containsSubstr cls2 "primary" <;> simp [hq, isClick, List.filter]

/-- Counterexample to C7 as stated: after clicking a Selectable slot the
code accepts a re-read class attribute that merely contains "primary" as a
substring; here the re-read attribute "primaryX" classifies as Selectable,
not AlreadySelected, yet the call returns true. -/
theorem C7_counterexample :
    (click_time_selection TIME_SELECTION_1_XPATH
        [Resp.val "" "h", Resp.val "x" "h", Resp.val "primaryX" "h"]).1 =
      Except.ok true ∧
    classify "primaryX" ≠ SlotState.AlreadySelected :=
  ⟨rfl, by decide⟩

/-- Witness for C7 (amended) on a concrete Selectable slot whose click
does not take effect. -/
theorem C7_witness :
    click_time_selection TIME_SELECTION_1_XPATH
        [Resp.val "" "h", Resp.val "x" "h", Resp.val "nope" "h"] =
      (Except.ok (containsSubstr "nope" "primary"),
       [Event.waitPresent TIME_SELECTION_1_XPATH,
        Event.log LogLevel.info ("time selection " ++ "h"),
        Event.click TIME_SELECTION_1_XPATH, Event.sleep 5,
        Event.waitPresent TIME_SELECTION_1_XPATH] ++
         (if containsSubstr "nope" "primary" then []
          else [Event.log LogLevel.error "Time available but did not click."]),
       []) ∧
    (click_time_selection TIME_SELECTION_1_XPATH
        [Resp.val "" "h", Resp.val "x" "h", Resp.val "nope" "h"]).2.1.filter isClick =
      [Event.click TIME_SELECTION_1_XPATH] :=
  C7_selectable_click_verified TIME_SELECTION_1_XPATH "" "h" "x" "h" "nope" "h" []
    (by decide)

/-- Claim C9 (amended): in each wizard-stage advance, the active-section
verification only adds an error-level log on mismatch — the result, the
rest of the trace and the remaining interaction are exactly those of the
continuation, whatever the check reported, so the check can never abort
the attempt or change its outcome. -/
theorem C9_soft_check_logs_and_continues :
    (∀ t evN r trest,
       click_button_by_xpath NEXT_BUTTON_XPATH t = (Except.ok (), evN, r :: trest) →
       containsSafe r = true →
       stage_tail0 t =
         ((stage_tail1 trest).1,
          evN ++ Event.containsCheck 1 CONTENT_ACTIVE_XPATH ::
            (soft "Wrong div active1." (containsRes r) ++ (stage_tail1 trest).2.1),
          (stage_tail1 trest).2.2)) ∧
    (∀ t evN r trest,
       click_button_by_xpath NEXT_BUTTON_XPATH t = (Except.ok (), evN, r :: trest) →
       containsSafe r = true →
       stage_tail1 t =
         ((stage_tail2 trest).1,
          Event.sleep 3 ::
            (evN ++ Event.containsCheck 2 CONTENT_ACTIVE_XPATH ::
              (soft "Wrong div active2." (containsRes r) ++ (stage_tail2 trest).2.1)),
          (stage_tail2 trest).2.2)) := by
  constructor
  · intro t evN r trest hclick hsafe
    unfold stage_tail0
    rcases hst : stage_tail1 trest with ⟨r1, ev1, tt⟩
    rcases r with ⟨c, i⟩ | e
    · simp [hclick, contains_element, readResp, hst, soft, containsRes]
    · rcases e with _ | _ | _ | _ | _
      · exact absurd hsafe (by decide)
      · exact absurd hsafe (by decide)
      · exact absurd hsafe (by decide)
      · exact absurd hsafe (by decide)
      · simp [hclick, contains_element, readResp, hst, soft, containsRes]
  · intro t evN r trest hclick hsafe
    unfold stage_tail1
    rcases hst : stage_tail2 trest with ⟨r1, ev1, tt⟩
    rcases r with ⟨c, i⟩ | e
    · simp [hclick, contains_element, readResp, hst, soft, containsRes]
    · rcases e with _ | _ | _ | _ | _
      · exact absurd hsafe (by decide)
      · exact absurd hsafe (by decide)
      · exact absurd hsafe (by decide)
      · exact absurd hsafe (by decide)
      · simp [hclick, contains_element, readResp, hst, soft, containsRes]

/-- Counterexample to C9 as stated: a concrete sections[1] mismatch is
logged at error level — no warning-level record exists anywhere in the
trace — while the stage block still completes successfully. -/
theorem C9_counterexample :
    (stage_tail0 C9_tape).1 = Except.ok () ∧
    Event.log LogLevel.error "Wrong div active1." ∈ (stage_tail0 C9_tape).2.1 ∧
    (stage_tail0 C9_tape).2.1.filter isWarning = [] := by
  refine ⟨rfl, ?_, rfl⟩
  decide

/-- Witness for C9 (amended) on the concrete mismatch environment. -/
theorem C9_witness :
    stage_tail0 C9_tape =
      ((stage_tail1 (List.replicate 8 (Resp.val "x" "h"))).1,
       [Event.waitPresent NEXT_BUTTON_XPATH,
        Event.log LogLevel.info "Clicking button: h",
        Event.click NEXT_BUTTON_XPATH, Event.sleep 5] ++
         Event.containsCheck 1 CONTENT_ACTIVE_XPATH ::
           (soft "Wrong div active1." (containsRes (Resp.exc Exc.noSuchElementEx)) ++
            (stage_tail1 (List.replicate 8 (Resp.val "x" "h"))).2.1),
       (stage_tail1 (List.replicate 8 (Resp.val "x" "h"))).2.2) :=
  C9_soft_check_logs_and_continues.1 C9_tape
    [Event.waitPresent NEXT_BUTTON_XPATH,
     Event.log LogLevel.info "Clicking button: h",
     Event.click NEXT_BUTTON_XPATH, Event.sleep 5]
    (Resp.exc Exc.noSuchElementEx) (List.replicate 8 (Resp.val "x" "h")) rfl rfl

end PSCBook
